import Mathlib

/-!
Shallow embedding of the BOM (bill of materials) generation engine of
`app/services/solution_service.py` (class `SolutionService`) of the
VAR-PIP repository, together with the slice of the data model from
`app/schemas/solution.py` and `app/models/solution.py` that the engine
reads.  Machine floats of the source (catalog prices) are modelled as
exact rationals; Python `Optional` values are `Option`; the dynamic
`eval` of arithmetic formula strings is modelled by an explicit formula
syntax tree with an evaluator that returns `none` on division by zero
(the source catches every evaluation failure with `except Exception`).

The file is laid out as: embedding definitions, claim-level auxiliary
definitions and concrete instances, then the theorems.
-/

namespace VarPip

/-- Python `a or b` on two optional integers: the left operand wins when
it is truthy (present and nonzero), otherwise the right operand's value
is taken.  Mirrors expressions such as `request.devices or request.sites`. -/
def orI : Option Int → Option Int → Option Int
  | some n, b => if n = 0 then b else some n
  | none, b => b

/-- Python `a or d` where `a` is an optional integer and `d` a plain
integer final operand, as in `request.sites or 0`. -/
def orIV : Option Int → Int → Int
  | some n, d => if n = 0 then d else n
  | none, d => d

/-- Python `a or d` for an optional string with a plain string default;
`None` and the empty string are falsy, as in `request.license_tier or "essentials"`. -/
def orSV : Option String → String → String
  | some s, d => if s = "" then d else s
  | none, d => d

/-- Python truthiness of an optional string (`None` and `""` are falsy),
as used by the `if not sku` / `if sku` tests of `_resolve_product`. -/
def truthyS : Option String → Bool
  | some s => decide (s ≠ "")
  | none => false

/-- Syntax tree of the arithmetic formulas stored in
`quantity_formula` (source examples: `sites * 2`, `devices / 6000`);
the source keeps them as strings and evaluates them with `eval` after
substituting the variables `sites`, `devices`, `users`. -/
inductive Formula
  | num (n : Int)
  | sites
  | devices
  | users
  | add (a b : Formula)
  | sub (a b : Formula)
  | mul (a b : Formula)
  | div (a b : Formula)
deriving DecidableEq, Repr

/-- Evaluation of a quantity formula after substituting the three
variables, over exact rationals (Python `/` is true division); division
by zero yields `none`, the failure the source catches with
`except Exception`. -/
def evalFormula (f : Formula) (sites devices users : Int) : Option ℚ :=
  match f with
  | .num n => some (n : ℚ)
  | .sites => some (sites : ℚ)
  | .devices => some (devices : ℚ)
  | .users => some (users : ℚ)
  | .add a b =>
    match evalFormula a sites devices users, evalFormula b sites devices users with
    | some x, some y => some (x + y)
    | _, _ => none
  | .sub a b =>
    match evalFormula a sites devices users, evalFormula b sites devices users with
    | some x, some y => some (x - y)
    | _, _ => none
  | .mul a b =>
    match evalFormula a sites devices users, evalFormula b sites devices users with
    | some x, some y => some (x * y)
    | _, _ => none
  | .div a b =>
    match evalFormula a sites devices users, evalFormula b sites devices users with
    | some x, some y => if y = 0 then none else some (x / y)
    | _, _ => none

/-- One sizing-tier record of `component.sizing_tiers` (a JSON dictionary
in the source); every key is optional.  Scale tiers carry one of the
`max_aps` / `max_devices` / `max_sites` / `max_users` keys, license tiers
carry `tier` and `term_years`; both carry `sku`. -/
structure Tier where
  max_aps : Option Int := none
  max_devices : Option Int := none
  max_sites : Option Int := none
  max_users : Option Int := none
  tier : Option String := none
  term_years : Option Int := none
  sku : Option String := none
deriving DecidableEq, Repr

/-- A solution component (`SolutionComponent` of `app/models/solution.py`,
typed as in `SolutionComponentBase` of `app/schemas/solution.py`); field
defaults mirror the schema defaults.  JSON-list columns that the model
surfaces as `None` or a list are modelled as plain lists with `[]` for
the absent case (both are falsy in the source). -/
structure SolutionComponent where
  id : String
  name : String
  component_type : String
  is_required : Bool := true
  display_order : Int := 0
  quantity_type : String := "fixed"
  quantity_default : Int := 1
  quantity_formula : Option Formula := none
  sizing_tiers : List Tier := []
  product_options : List String := []
  license_term_months : List Int := []
  notes : Option String := none
deriving Repr

/-- A solution template (`Solution` of `app/models/solution.py`) with the
fields `generate_bom` reads; `use_cases` is the decoded
`use_cases_list` (empty when the column is null). -/
structure Solution where
  id : String
  name : String
  vendor_id : String
  components : List SolutionComponent := []
  use_cases : List String := []
deriving Repr

/-- A vendor row (`Vendor` of `app/models/vendor.py`), reduced to the
fields the engine reads. -/
structure Vendor where
  id : String
  name : String
deriving Repr

/-- A product row (`Product` of `app/models/product.py`), reduced to the
fields the engine reads; `list_price` models the nullable
`list_price_float` property as an exact rational. -/
structure Product where
  sku : String
  name : String
  list_price : Option ℚ := none
deriving Repr

/-- The relational store the service queries, reduced to the three
tables the BOM engine touches. -/
structure Database where
  solutions : List Solution := []
  vendors : List Vendor := []
  products : List Product := []
deriving Repr

/-- `BOMRequest` of `app/schemas/solution.py`; `product_selections` (a
Python dict from component id to SKU) is modelled as an association
list. Field defaults mirror the schema defaults. -/
structure BOMRequest where
  solution_id : String
  sites : Option Int := none
  devices : Option Int := none
  users : Option Int := none
  license_tier : Option String := none
  license_term_years : Option Int := none
  ha_enabled : Bool := true
  product_selections : List (String × String) := []
deriving Repr

/-- `BOMLineItem` of `app/schemas/solution.py`. -/
structure BOMLineItem where
  component_id : String
  component_name : String
  component_type : String
  quantity : Int
  sku : Option String := none
  product_name : Option String := none
  unit_price : Option ℚ := none
  extended_price : Option ℚ := none
  license_tier : Option String := none
  license_term_months : Option Int := none
  notes : Option String := none
  is_required : Bool := true
deriving Repr

/-- The `parameters` echo dictionary built inside `generate_bom`. -/
structure BOMParameters where
  sites : Option Int
  devices : Option Int
  users : Option Int
  license_tier : Option String
  license_term_years : Option Int
  ha_enabled : Bool
deriving Repr

/-- `BOMResponse` of `app/schemas/solution.py`. -/
structure BOMResponse where
  solution_id : String
  solution_name : String
  vendor_id : String
  vendor_name : Option String
  parameters : BOMParameters
  line_items : List BOMLineItem
  hardware_total : Option ℚ
  licensing_total : Option ℚ
  grand_total : Option ℚ
  notes : List String
  warnings : List String
deriving Repr

/-- `SolutionService._calculate_quantity`: quantity policy dispatch on
`quantity_type`, with the HA doubling special case for fixed controller
components and the `eval`-with-fallback behaviour for calculated ones. -/
def calculate_quantity (c : SolutionComponent) (r : BOMRequest) : Int :=
  if c.quantity_type = "fixed" then
    if c.component_type = "controller" ∧ r.ha_enabled = true ∧ c.quantity_default = 1 then 2
    else c.quantity_default
  else if c.quantity_type = "per_site" then orIV r.sites 0
  else if c.quantity_type = "per_device" then orIV (orI r.devices r.sites) 0
  else if c.quantity_type = "per_user" then orIV r.users 0
  else if c.quantity_type = "calculated" then
    match c.quantity_formula with
    | some f =>
      match evalFormula f (orIV r.sites 0) (orIV (orI r.devices r.sites) 0) (orIV r.users 0) with
      | some res => max 1 ⌈res⌉
      | none => c.quantity_default
    | none => c.quantity_default
  else c.quantity_default

/-- The `or`-chain `tier.get("max_aps") or tier.get("max_devices") or
tier.get("max_sites") or tier.get("max_users")` computing `max_val` in
the scale-tier loop of `_resolve_product`. -/
def tier_max_val (t : Tier) : Option Int :=
  orI (orI (orI t.max_aps t.max_devices) t.max_sites) t.max_users

/-- The loop guard `if max_val and scale_value <= max_val` of the
scale-tier scan. -/
def tierQualifies (t : Tier) (scale : Int) : Bool :=
  match tier_max_val t with
  | some m => decide (m ≠ 0 ∧ scale ≤ m)
  | none => false

/-- The scale-tier branch of `_resolve_product`: scan for the first
qualifying tier, take its `sku`, and if the resulting `sku` is still
falsy use the last tier's `sku`. -/
def scale_tier_sku (tiers : List Tier) (scale : Int) : Option String :=
  let sku := (tiers.find? (fun t => tierQualifies t scale)).bind Tier.sku
  if truthyS sku then sku else tiers.getLast?.bind Tier.sku

/-- The license-tier branch of `_resolve_product`: scan for an exact
(tier, term_years) match; if the resulting `sku` is falsy, re-scan for a
tier-name-only match and take its `sku` (leaving `sku` untouched when
that scan matches nothing). -/
def license_tier_sku (tiers : List Tier) (target_tier : String) (target_term : Int) :
    Option String :=
  let sku := (tiers.find?
    (fun t => t.tier == some target_tier && t.term_years == some target_term)).bind Tier.sku
  if truthyS sku then sku
  else
    match tiers.find? (fun t => t.tier == some target_tier) with
    | some t => t.sku
    | none => sku

/-- The default license-tier name of `_resolve_product`
(`request.license_tier or "essentials"`). -/
def default_license_tier : String := "essentials"

/-- The default license term in years of `_resolve_product`
(`request.license_term_years or 5`). -/
def default_license_term : Int := 5

/-- The `scale_value` of `_resolve_product`:
`request.devices or request.sites or quantity`. -/
def scale_value (r : BOMRequest) (quantity : Int) : Int :=
  orIV (orI r.devices r.sites) quantity

/-- SKU resolution order of `_resolve_product`: explicit user selection,
else sizing tiers (license mode when the first tier carries both `tier`
and `term_years` keys, scale mode otherwise), else the first product
option, else none. -/
def resolve_sku (c : SolutionComponent) (r : BOMRequest) (quantity : Int) : Option String :=
  if r.product_selections ≠ [] ∧ (r.product_selections.lookup c.id).isSome then
    r.product_selections.lookup c.id
  else
    match c.sizing_tiers with
    | first_tier :: _ =>
      if first_tier.tier.isSome ∧ first_tier.term_years.isSome then
        license_tier_sku c.sizing_tiers (orSV r.license_tier default_license_tier)
          (orIV r.license_term_years default_license_term)
      else
        scale_tier_sku c.sizing_tiers (scale_value r quantity)
    | [] =>
      if c.product_options ≠ [] then c.product_options.head?
      else none

/-- The catalog lookup `db.query(Product).filter(Product.sku == sku).first()`. -/
def find_product_by_sku (db : Database) (sku : String) : Option Product :=
  db.products.find? (fun p => p.sku == sku)

/-- `SolutionService._resolve_product`: resolve the SKU, then (when the
SKU is truthy) look the product up in the catalog for name and price. -/
def resolve_product (db : Database) (c : SolutionComponent) (r : BOMRequest)
    (quantity : Int) : Option String × Option String × Option ℚ :=
  match resolve_sku c r quantity with
  | some s =>
    if s = "" then (some s, none, none)
    else
      match find_product_by_sku db s with
      | some p => (some s, some p.name, p.list_price)
      | none => (some s, none, none)
  | none => (none, none, none)

/-- The membership test `component.component_type in ["license", "subscription"]`. -/
def is_licensing (component_type : String) : Bool :=
  component_type == "license" || component_type == "subscription"

/-- The line item built for one retained component inside the
`generate_bom` loop. -/
def build_line_item (db : Database) (r : BOMRequest) (c : SolutionComponent)
    (quantity : Int) : BOMLineItem :=
  let rp := resolve_product db c r quantity
  { component_id := c.id
    component_name := c.name
    component_type := c.component_type
    quantity := quantity
    sku := rp.1
    product_name := rp.2.1
    unit_price := rp.2.2
    extended_price := rp.2.2.map (fun p => p * (quantity : ℚ))
    license_tier := if is_licensing c.component_type then r.license_tier else none
    license_term_months :=
      if is_licensing c.component_type then
        match r.license_term_years with
        | some y => if y = 0 then c.license_term_months.head? else some (y * 12)
        | none => c.license_term_months.head?
      else none
    notes := c.notes
    is_required := c.is_required }

/-- The note pushed for a component with truthy `notes`
(`f"{component.name}: {component.notes}"`). -/
def note_entry (c : SolutionComponent) : Option String :=
  match c.notes with
  | some n => if n = "" then none else some (c.name ++ ": " ++ n)
  | none => none

/-- Contribution of one retained line item to `hardware_total`
(extended price of a priced non-license/subscription item, else 0). -/
def hw_contrib (c : SolutionComponent) (item : BOMLineItem) : ℚ :=
  match item.extended_price with
  | some e => if is_licensing c.component_type then 0 else e
  | none => 0

/-- Contribution of one retained line item to `licensing_total`. -/
def lic_contrib (c : SolutionComponent) (item : BOMLineItem) : ℚ :=
  match item.extended_price with
  | some e => if is_licensing c.component_type then e else 0
  | none => 0

/-- Accumulator state of the `generate_bom` loop. -/
structure BOMAccum where
  line_items : List BOMLineItem
  notes : List String
  hardware_total : ℚ
  licensing_total : ℚ
deriving Repr

/-- The `generate_bom` loop over the display-order-sorted components:
skip zero-quantity optional components, otherwise emit a line item and
accumulate its price into the hardware or licensing total and its note. -/
def process_components (db : Database) (r : BOMRequest) :
    List SolutionComponent → BOMAccum
  | [] => { line_items := [], notes := [], hardware_total := 0, licensing_total := 0 }
  | c :: cs =>
    let acc := process_components db r cs
    if calculate_quantity c r = 0 ∧ c.is_required = false then acc
    else
      let item := build_line_item db r c (calculate_quantity c r)
      { line_items := item :: acc.line_items
        notes := (note_entry c).toList ++ acc.notes
        hardware_total := hw_contrib c item + acc.hardware_total
        licensing_total := lic_contrib c item + acc.licensing_total }

/-- `sorted(solution.components, key=lambda c: c.display_order)` — a
stable sort by display order. -/
def sort_components (cs : List SolutionComponent) : List SolutionComponent :=
  List.insertionSort (fun a b => a.display_order ≤ b.display_order) cs

/-- `SolutionService.get_solution`: first stored solution with the id. -/
def get_solution (db : Database) (solution_id : String) : Option Solution :=
  db.solutions.find? (fun s => s.id == solution_id)

/-- `SolutionService.generate_bom`: fail when the solution id is unknown,
otherwise resolve each sorted component, aggregate totals (`None` unless
strictly positive) and assemble the response. -/
def generate_bom (db : Database) (r : BOMRequest) : Except String BOMResponse :=
  match get_solution db r.solution_id with
  | none => Except.error ("Solution not found: " ++ r.solution_id)
  | some solution =>
    let vendor := db.vendors.find? (fun v => v.id == solution.vendor_id)
    let acc := process_components db r (sort_components solution.components)
    let notes :=
      if solution.use_cases ≠ [] then
        acc.notes ++ ["Use cases: " ++ String.intercalate (", ") solution.use_cases]
      else acc.notes
    let grand_total :=
      if acc.hardware_total > 0 ∨ acc.licensing_total > 0 then
        some (acc.hardware_total + acc.licensing_total)
      else none
    Except.ok
      { solution_id := solution.id
        solution_name := solution.name
        vendor_id := solution.vendor_id
        vendor_name := vendor.map Vendor.name
        parameters :=
          { sites := r.sites, devices := r.devices, users := r.users,
            license_tier := r.license_tier, license_term_years := r.license_term_years,
            ha_enabled := r.ha_enabled }
        line_items := acc.line_items
        hardware_total := if acc.hardware_total > 0 then some acc.hardware_total else none
        licensing_total := if acc.licensing_total > 0 then some acc.licensing_total else none
        grand_total := grand_total
        notes := notes
        warnings := [] }

/-! ### Claim-level auxiliary definitions -/

/-- The per-device rule exactly as claim C7 words it: `request.devices`
when present, else `request.sites` when present, else 0 (presence, not
Python truthiness). -/
def claimed_per_device (r : BOMRequest) : Int :=
  match r.devices with
  | some d => d
  | none =>
    match r.sites with
    | some s => s
    | none => 0

/-- Sites fallback of the amended per-device rule: `request.sites` when
present and nonzero, else 0. -/
def amended_sites_value (r : BOMRequest) : Int :=
  match r.sites with
  | some s => if s = 0 then 0 else s
  | none => 0

/-- The amended per-device rule: `request.devices` when present and
nonzero, else `request.sites` when present and nonzero, else 0. -/
def amended_per_device (r : BOMRequest) : Int :=
  match r.devices with
  | some d => if d = 0 then amended_sites_value r else d
  | none => amended_sites_value r

/-- First *present* of two optional integers (key presence, not Python
truthiness) — the threshold reading of claim C1. -/
def firstPresent (a b : Option Int) : Option Int :=
  match a with
  | some n => some n
  | none => b

/-- The tier threshold exactly as claim C1 words it: the first present
key among `max_aps`, `max_devices`, `max_sites`, `max_users`. -/
def claimed_scale_threshold (t : Tier) : Option Int :=
  firstPresent t.max_aps (firstPresent t.max_devices (firstPresent t.max_sites t.max_users))

/-- Scale-tier selection exactly as claim C1 words it: the first tier
whose first-present-key threshold is at least the scale metric, with the
last tier's SKU as the no-match fallback. -/
def claimed_scale_sku (tiers : List Tier) (scale : Int) : Option String :=
  match tiers.find? (fun t =>
      match claimed_scale_threshold t with
      | some m => decide (scale ≤ m)
      | none => false) with
  | some t => t.sku
  | none => tiers.getLast?.bind Tier.sku

/-- Scale-tier selection as amended: the first tier whose first *nonzero*
threshold key (same key order) is at least the scale metric; a tier with
no nonzero threshold key never qualifies; last tier's SKU as fallback. -/
def amended_scale_sku (tiers : List Tier) (scale : Int) : Option String :=
  match tiers.find? (fun t => tierQualifies t scale) with
  | some t => t.sku
  | none => tiers.getLast?.bind Tier.sku

/-- License-tier selection exactly as claim C2 words it: the SKU of the
first exact (tier, term_years) match, else the SKU of the first
tier-name-only match, else none. -/
def claimed_license_sku (tiers : List Tier) (target_tier : String) (target_term : Int) :
    Option String :=
  match tiers.find?
      (fun t => t.tier == some target_tier && t.term_years == some target_term) with
  | some t => t.sku
  | none =>
    match tiers.find? (fun t => t.tier == some target_tier) with
    | some t => t.sku
    | none => none

/-- Sum of extended prices over the non-license/subscription line items,
as claim C6 words the hardware total (an unpriced item contributes
nothing). -/
def hw_sum : List BOMLineItem → ℚ
  | [] => 0
  | i :: rest =>
    (if is_licensing i.component_type then 0 else i.extended_price.getD 0) + hw_sum rest

/-- Sum of extended prices over the license/subscription line items, as
claim C6 words the licensing total. -/
def lic_sum : List BOMLineItem → ℚ
  | [] => 0
  | i :: rest =>
    (if is_licensing i.component_type then i.extended_price.getD 0 else 0) + lic_sum rest

/-! ### Concrete instances used by counterexamples and witnesses -/

/-- A per-device component on which the code and claim C7 part ways. -/
def c7_component : SolutionComponent :=
  { id := "c7", name := "Access Point", component_type := "edge",
    quantity_type := "per_device" }

/-- Request with `devices` present but zero and `sites = 12`. -/
def c7_request : BOMRequest :=
  { solution_id := "s7", devices := some 0, sites := some 12 }

/-- Request with `devices` absent and `sites = 12`. -/
def c7w_request : BOMRequest := { solution_id := "s7w", sites := some 12 }

/-- A fixed controller component with default quantity 1. -/
def c4w_component : SolutionComponent :=
  { id := "c4", name := "Controller", component_type := "controller" }

/-- A request with HA enabled (the schema default). -/
def c4w_request : BOMRequest := { solution_id := "s4" }

/-- A calculated component whose formula divides by zero, with
fallback default 7. -/
def c3w_component : SolutionComponent :=
  { id := "c3", name := "Collector", component_type := "software",
    quantity_type := "calculated",
    quantity_formula := some (Formula.div Formula.devices (Formula.num 0)),
    quantity_default := 7 }

/-- A request supplying `devices = 12`. -/
def c3w_request : BOMRequest := { solution_id := "s3", devices := some 12 }

/-- First scale tier of the C1 counterexample: its first *present*
threshold key (`max_aps`) is 0, its first *nonzero* one is 5000. -/
def c1_tier1 : Tier := { max_aps := some 0, max_devices := some 5000, sku := some "A" }

/-- Second scale tier of the C1 counterexample. -/
def c1_tier2 : Tier := { max_devices := some 10000, sku := some "B" }

/-- A component carrying the two scale tiers above. -/
def c1_component : SolutionComponent :=
  { id := "c1", name := "Controller", component_type := "controller",
    sizing_tiers := [c1_tier1, c1_tier2] }

/-- A request asking for 2000 devices. -/
def c1_request : BOMRequest := { solution_id := "s1", devices := some 2000 }

/-- An empty store (the SKU coordinate of `_resolve_product` ignores the
catalog). -/
def c1_db : Database := {}

/-- First license tier of the C2 counterexample. -/
def c2_tier1 : Tier := { tier := some "essentials", term_years := some 3, sku := some "X" }

/-- Second license tier of the C2 counterexample: an exact match for the
request below, but carrying no `sku` key. -/
def c2_tier2 : Tier := { tier := some "essentials", term_years := some 5 }

/-- A license component carrying the two tiers above. -/
def c2_component : SolutionComponent :=
  { id := "c2", name := "DNA License", component_type := "license",
    sizing_tiers := [c2_tier1, c2_tier2] }

/-- A request for tier `essentials`, term 5 — exactly matching the
SKU-less second tier. -/
def c2_request : BOMRequest :=
  { solution_id := "s2", license_tier := some "essentials", license_term_years := some 5 }

/-- Second tier for the C2 witness, carrying a SKU. -/
def c2w_tier2 : Tier := { tier := some "essentials", term_years := some 5, sku := some "Y" }

/-- A license component with fully SKU-ed tiers. -/
def c2w_component : SolutionComponent :=
  { id := "c2w", name := "DNA License", component_type := "license",
    sizing_tiers := [c2_tier1, c2w_tier2] }

/-- A component with sizing tiers and product options that the explicit
override must shadow. -/
def c8w_component : SolutionComponent :=
  { id := "c8", name := "Edge Router", component_type := "edge",
    sizing_tiers := [c1_tier1, c1_tier2], product_options := ["EDGE-SKU"] }

/-- A request explicitly selecting SKU `OVR-1` for component `c8`. -/
def c8w_request : BOMRequest :=
  { solution_id := "s8", product_selections := [("c8", "OVR-1")] }

/-- A rebate-priced catalog row for the C6 counterexample. -/
def c6_product : Product := { sku := "HW-1", name := "Widget", list_price := some (-100) }

/-- A hardware component resolving to the negative-priced SKU. -/
def c6_component : SolutionComponent :=
  { id := "c6c", name := "Widget", component_type := "edge", product_options := ["HW-1"] }

/-- A one-component solution for the C6 counterexample. -/
def c6_solution : Solution :=
  { id := "sol6", name := "S6", vendor_id := "v6", components := [c6_component] }

/-- Store for the C6 counterexample. -/
def c6_db : Database := { solutions := [c6_solution], products := [c6_product] }

/-- Request for the C6 counterexample. -/
def c6_request : BOMRequest := { solution_id := "sol6" }

/-- Positively priced hardware row for the C6 witness. -/
def c6w_hw_product : Product := { sku := "HW-2", name := "Router", list_price := some 100 }

/-- Positively priced license row for the C6 witness. -/
def c6w_lic_product : Product := { sku := "LIC-2", name := "DNA", list_price := some 50 }

/-- Hardware component of the C6 witness (fixed quantity 2). -/
def c6w_hw_component : SolutionComponent :=
  { id := "c6w1", name := "Router", component_type := "edge", quantity_default := 2,
    product_options := ["HW-2"] }

/-- License component of the C6 witness (fixed quantity 1). -/
def c6w_lic_component : SolutionComponent :=
  { id := "c6w2", name := "DNA", component_type := "license", display_order := 1,
    product_options := ["LIC-2"] }

/-- Solution of the C6 witness. -/
def c6w_solution : Solution :=
  { id := "sol6w", name := "S6W", vendor_id := "v6",
    components := [c6w_hw_component, c6w_lic_component] }

/-- Store of the C6 witness. -/
def c6w_db : Database :=
  { solutions := [c6w_solution], products := [c6w_hw_product, c6w_lic_product] }

/-- Request of the C6 witness. -/
def c6w_request : BOMRequest := { solution_id := "sol6w" }

/-- An all-empty response, used as the impossible-branch fallback when a
known-good `generate_bom` result is unwrapped. -/
def empty_response : BOMResponse :=
  { solution_id := "", solution_name := "", vendor_id := "", vendor_name := none,
    parameters :=
      { sites := none, devices := none, users := none, license_tier := none,
        license_term_years := none, ha_enabled := true },
    line_items := [], hardware_total := none, licensing_total := none,
    grand_total := none, notes := [], warnings := [] }

/-- The (successful) response of the C6 witness run. -/
def bom6w : BOMResponse :=
  match generate_bom c6w_db c6w_request with
  | Except.ok resp => resp
  | Except.error _ => empty_response

/-- Zero-quantity optional component of the C9 witness (per-site with no
sites supplied). -/
def c9_opt_component : SolutionComponent :=
  { id := "c9a", name := "Optional AP", component_type := "optional",
    is_required := false, quantity_type := "per_site" }

/-- Zero-quantity required component of the C9 witness. -/
def c9_req_component : SolutionComponent :=
  { id := "c9b", name := "Core License", component_type := "license",
    quantity_type := "per_site", display_order := 1 }

/-- Solution of the C9 witness. -/
def c9_solution : Solution :=
  { id := "sol9", name := "S9", vendor_id := "v9",
    components := [c9_opt_component, c9_req_component] }

/-- Store of the C9 witness. -/
def c9_db : Database := { solutions := [c9_solution] }

/-- Request of the C9 witness (no sizing parameters, so both components
resolve to quantity 0). -/
def c9_request : BOMRequest := { solution_id := "sol9" }

/-- The (successful) response of the C9 witness run. -/
def bom9 : BOMResponse :=
  match generate_bom c9_db c9_request with
  | Except.ok resp => resp
  | Except.error _ => empty_response

/-! ### Helper theorems -/

/-- The first (SKU) coordinate of `_resolve_product` is the resolved SKU,
whatever the catalog holds. -/
theorem resolve_product_fst (db : Database) (c : SolutionComponent) (r : BOMRequest)
    (quantity : Int) : (resolve_product db c r quantity).1 = resolve_sku c r quantity := by
  unfold resolve_product
  cases resolve_sku c r quantity with
  | none => rfl
  | some s =>
    by_cases hs : s = ""
    · simp [hs]
    · cases hp : find_product_by_sku db s <;> simp [hs, hp]

/-- When every tier carries a non-empty SKU, the implementation's
scale-tier branch agrees with the amended first-qualifying-tier rule. -/
theorem scale_tier_sku_eq_amended (tiers : List Tier) (scale : Int)
    (hsku : ∀ t ∈ tiers, ∃ s, t.sku = some s ∧ s ≠ "") :
    scale_tier_sku tiers scale = amended_scale_sku tiers scale := by
  unfold scale_tier_sku amended_scale_sku
  cases hfind : tiers.find? (fun t => tierQualifies t scale) with
  | none => simp [hfind, truthyS]
  | some t =>
    obtain ⟨s, hs, hne⟩ := hsku t (List.mem_of_find?_eq_some hfind)
    simp [hfind, hs, truthyS, hne]

/-- When every tier carries a non-empty SKU, the implementation's
license-tier branch agrees with the claim's exact-then-name-only rule. -/
theorem license_tier_sku_eq_claimed (tiers : List Tier) (tt : String) (tm : Int)
    (hsku : ∀ t ∈ tiers, ∃ s, t.sku = some s ∧ s ≠ "") :
    license_tier_sku tiers tt tm = claimed_license_sku tiers tt tm := by
  unfold license_tier_sku claimed_license_sku
  cases hfind : tiers.find? (fun t => t.tier == some tt && t.term_years == some tm) with
  | none =>
    cases hn : tiers.find? (fun t => t.tier == some tt) <;>
      simp [hfind, hn, truthyS]
  | some t =>
    obtain ⟨s, hs, hne⟩ := hsku t (List.mem_of_find?_eq_some hfind)
    simp [hfind, hs, truthyS, hne]

/-- A line item's hardware contribution is its `hw_sum` summand. -/
theorem hw_contrib_eq (c : SolutionComponent) (item : BOMLineItem)
    (h : item.component_type = c.component_type) :
    hw_contrib c item =
      (if is_licensing item.component_type then 0 else item.extended_price.getD 0) := by
  cases hext : item.extended_price <;> simp [hw_contrib, hext, h]

/-- A line item's licensing contribution is its `lic_sum` summand. -/
theorem lic_contrib_eq (c : SolutionComponent) (item : BOMLineItem)
    (h : item.component_type = c.component_type) :
    lic_contrib c item =
      (if is_licensing item.component_type then item.extended_price.getD 0 else 0) := by
  cases hext : item.extended_price <;> simp [lic_contrib, hext, h]

/-- The running totals of the loop equal the sums over the emitted line
items. -/
theorem process_components_sums (db : Database) (r : BOMRequest)
    (cs : List SolutionComponent) :
    (process_components db r cs).hardware_total =
      hw_sum (process_components db r cs).line_items ∧
    (process_components db r cs).licensing_total =
      lic_sum (process_components db r cs).line_items := by
  induction cs with
  | nil => simp [process_components, hw_sum, lic_sum]
  | cons c cs ih =>
    by_cases hskip : calculate_quantity c r = 0 ∧ c.is_required = false
    · simpa [process_components, hskip] using ih
    · constructor
      · simp [process_components, hskip, hw_sum,
          hw_contrib_eq c (build_line_item db r c (calculate_quantity c r)) rfl, ih.1]
      · simp [process_components, hskip, lic_sum,
          lic_contrib_eq c (build_line_item db r c (calculate_quantity c r)) rfl, ih.2]

/-- The emitted line items are exactly the non-skipped components in
order, one item each. -/
theorem process_components_items (db : Database) (r : BOMRequest)
    (cs : List SolutionComponent) :
    (process_components db r cs).line_items = cs.filterMap (fun c =>
      if calculate_quantity c r = 0 ∧ c.is_required = false then none
      else some (build_line_item db r c (calculate_quantity c r))) := by
  induction cs with
  | nil => simp [process_components]
  | cons c cs ih =>
    by_cases hskip : calculate_quantity c r = 0 ∧ c.is_required = false
    · simp [process_components, hskip, ih]
    · simp [process_components, hskip, ih]

/-! ### Claim theorems -/

/-- C7 counterexample: with `devices = 0` (present) and `sites = 12`,
`_calculate_quantity` returns 12 (Python `or` treats 0 as absent),
while the claim's devices-when-present rule would return 0. -/
theorem C7_counterexample :
    calculate_quantity c7_component c7_request = 12 ∧
    claimed_per_device c7_request = 0 := by decide

/-- C7 (amended): for every component with `quantity_type = "per_device"`,
`_calculate_quantity` returns `request.devices` when present and nonzero,
else `request.sites` when present and nonzero, else 0. -/
theorem C7_per_device (c : SolutionComponent) (r : BOMRequest)
    (h : c.quantity_type = "per_device") :
    calculate_quantity c r = amended_per_device r := by
  simp only [calculate_quantity, h]
  cases hd : r.devices with
  | none =>
    cases hs : r.sites <;>
      simp [orI, orIV, amended_per_device, amended_sites_value, hd, hs]
  | some d =>
    cases hs : r.sites with
    | none =>
      by_cases hd0 : d = 0 <;>
        simp [orI, orIV, amended_per_device, amended_sites_value, hd, hs, hd0]
    | some s =>
      by_cases hd0 : d = 0 <;> by_cases hs0 : s = 0 <;>
        simp [orI, orIV, amended_per_device, amended_sites_value, hd, hs, hd0, hs0]

/-- C7 witness: the amended rule at a concrete input (`devices` absent,
`sites = 12` gives quantity 12). -/
theorem C7_per_device_witness : calculate_quantity c7_component c7w_request = 12 := by
  simpa [c7w_request, amended_per_device, amended_sites_value] using
    C7_per_device c7_component c7w_request rfl

/-- C4: for every component with `quantity_type = "fixed"`,
`_calculate_quantity` returns `quantity_default`, except that a
controller with `ha_enabled` and default exactly 1 is doubled to 2;
with `ha_enabled = false`, or any other default, the default passes
through unchanged. -/
theorem C4_fixed_quantity (c : SolutionComponent) (r : BOMRequest)
    (h : c.quantity_type = "fixed") :
    calculate_quantity c r =
      if c.component_type = "controller" ∧ r.ha_enabled = true ∧ c.quantity_default = 1 then 2
      else c.quantity_default := by
  simp [calculate_quantity, h]

/-- C4 witness: the HA doubling at a concrete input — a fixed controller
with default 1 resolves to 2 under the HA-enabled default request. -/
theorem C4_fixed_quantity_witness : calculate_quantity c4w_component c4w_request = 2 := by
  simpa [c4w_component, c4w_request] using
    C4_fixed_quantity c4w_component c4w_request rfl

/-- C3: for every component with `quantity_type = "calculated"` and a
formula, if evaluating the formula on the substituted sites / devices
(devices-or-sites fallback) / users values succeeds with result `res`,
`_calculate_quantity` returns `max 1 ⌈res⌉`; if evaluation fails it
returns `quantity_default`.  Being a total function, it raises nothing. -/
theorem C3_calculated_formula (c : SolutionComponent) (r : BOMRequest) (f : Formula)
    (htype : c.quantity_type = "calculated") (hf : c.quantity_formula = some f) :
    (∀ res : ℚ,
      evalFormula f (orIV r.sites 0) (orIV (orI r.devices r.sites) 0) (orIV r.users 0) = some res →
      calculate_quantity c r = max 1 ⌈res⌉) ∧
    (evalFormula f (orIV r.sites 0) (orIV (orI r.devices r.sites) 0) (orIV r.users 0) = none →
      calculate_quantity c r = c.quantity_default) := by
  constructor
  · intro res hres
    simp [calculate_quantity, htype, hf, hres]
  · intro hres
    simp [calculate_quantity, htype, hf, hres]

/-- C3 witness: the division-by-zero formula falls back to the
component's default quantity 7 at a concrete input. -/
theorem C3_calculated_formula_witness : calculate_quantity c3w_component c3w_request = 7 :=
  (C3_calculated_formula c3w_component c3w_request
    (Formula.div Formula.devices (Formula.num 0)) rfl rfl).2 rfl

/-- C1 counterexample: with a first tier `{max_aps: 0, max_devices: 5000,
sku: "A"}` and 2000 devices, the code's `or`-chain skips the zero-valued
`max_aps` key and selects SKU "A", while the claim's first-present-key
threshold (0) disqualifies that tier and selects "B". -/
theorem C1_counterexample :
    (resolve_product c1_db c1_component c1_request 1).1 = some "A" ∧
    claimed_scale_sku c1_component.sizing_tiers (scale_value c1_request 1) = some "B" := by
  decide

/-- C1 (amended): in scale-tier mode, for every component whose tiers all
carry a non-empty SKU and every request without an override for it, the
resolved SKU is that of the first tier whose first nonzero threshold key
(order `max_aps`, `max_devices`, `max_sites`, `max_users`) is at least
the scale metric `devices or sites or quantity`, with the last tier's
SKU when no tier qualifies. -/
theorem C1_scale_tier_selection (db : Database) (c : SolutionComponent) (r : BOMRequest)
    (quantity : Int)
    (hsel : r.product_selections.lookup c.id = none)
    (ft : Tier) (rest : List Tier) (hts : c.sizing_tiers = ft :: rest)
    (hscale : ¬(ft.tier.isSome ∧ ft.term_years.isSome))
    (hsku : ∀ t ∈ c.sizing_tiers, ∃ s, t.sku = some s ∧ s ≠ "") :
    (resolve_product db c r quantity).1 =
      amended_scale_sku c.sizing_tiers (scale_value r quantity) := by
  rw [resolve_product_fst]
  have h1 : resolve_sku c r quantity = scale_tier_sku c.sizing_tiers (scale_value r quantity) := by
    unfold resolve_sku
    rw [hts]
    simp [hsel, hscale]
  rw [h1]
  exact scale_tier_sku_eq_amended _ _ hsku

/-- C1 witness: the amended rule evaluated at the concrete component of
the counterexample (whose SKUs are all non-empty): SKU "A" is selected. -/
theorem C1_scale_tier_selection_witness :
    (resolve_product c1_db c1_component c1_request 1).1 = some "A" := by
  have h := C1_scale_tier_selection c1_db c1_component c1_request 1 rfl
    c1_tier1 [c1_tier2] rfl (by decide) (by decide)
  rw [h]
  decide

/-- C2 counterexample: the exact (essentials, 5) match is the SKU-less
second tier, so the claim yields no SKU; the code's `if not sku` falls
through to the name-only scan and returns the first tier's "X". -/
theorem C2_counterexample :
    (resolve_product c1_db c2_component c2_request 1).1 = some "X" ∧
    claimed_license_sku c2_component.sizing_tiers default_license_tier default_license_term
      = none := by
  decide

/-- C2 (amended): in license-tier mode, for every component whose tiers
all carry a non-empty SKU and every request without an override for it,
the resolved SKU follows the claim's rule: first exact
(tier, term_years) match against `license_tier or "essentials"` and
`license_term_years or 5`, else first tier-name-only match, else none. -/
theorem C2_license_tier_selection (db : Database) (c : SolutionComponent) (r : BOMRequest)
    (quantity : Int)
    (hsel : r.product_selections.lookup c.id = none)
    (ft : Tier) (rest : List Tier) (hts : c.sizing_tiers = ft :: rest)
    (hlic : ft.tier.isSome ∧ ft.term_years.isSome)
    (hsku : ∀ t ∈ c.sizing_tiers, ∃ s, t.sku = some s ∧ s ≠ "") :
    (resolve_product db c r quantity).1 =
      claimed_license_sku c.sizing_tiers (orSV r.license_tier default_license_tier)
        (orIV r.license_term_years default_license_term) := by
  rw [resolve_product_fst]
  have h1 : resolve_sku c r quantity =
      license_tier_sku c.sizing_tiers (orSV r.license_tier default_license_tier)
        (orIV r.license_term_years default_license_term) := by
    unfold resolve_sku
    rw [hts]
    simp [hsel, hlic]
  rw [h1]
  exact license_tier_sku_eq_claimed _ _ _ hsku

/-- C2 witness: with both tiers carrying SKUs, the exact (essentials, 5)
match resolves to "Y". -/
theorem C2_license_tier_selection_witness :
    (resolve_product c1_db c2w_component c2_request 1).1 = some "Y" := by
  have h := C2_license_tier_selection c1_db c2w_component c2_request 1 rfl
    c2_tier1 [c2w_tier2] rfl (by decide) (by decide)
  rw [h]
  decide

/-- C8: SKU resolution precedence of `_resolve_product`, first match
wins: explicit `product_selections` override used verbatim; else tier
selection (license or scale mode by the first tier's keys) when
`sizing_tiers` is non-empty; else the first `product_options` entry;
else no SKU. -/
theorem C8_precedence (db : Database) (c : SolutionComponent) (r : BOMRequest)
    (quantity : Int) :
    (∀ s : String, r.product_selections.lookup c.id = some s →
      (resolve_product db c r quantity).1 = some s) ∧
    (r.product_selections.lookup c.id = none →
      ∀ ft rest, c.sizing_tiers = ft :: rest →
      (resolve_product db c r quantity).1 =
        (if ft.tier.isSome ∧ ft.term_years.isSome then
          license_tier_sku c.sizing_tiers (orSV r.license_tier default_license_tier)
            (orIV r.license_term_years default_license_term)
        else scale_tier_sku c.sizing_tiers (scale_value r quantity))) ∧
    (r.product_selections.lookup c.id = none → c.sizing_tiers = [] →
      c.product_options ≠ [] →
      (resolve_product db c r quantity).1 = c.product_options.head?) ∧
    (r.product_selections.lookup c.id = none → c.sizing_tiers = [] →
      c.product_options = [] →
      (resolve_product db c r quantity).1 = none) := by
  refine ⟨?_, ?_, ?_, ?_⟩
  · intro s hs
    have hne : r.product_selections ≠ [] := by
      intro h0
      rw [h0] at hs
      simp [List.lookup] at hs
    rw [resolve_product_fst]
    unfold resolve_sku
    simp [hne, hs]
  · intro hnone ft rest hts
    rw [resolve_product_fst]
    unfold resolve_sku
    rw [hts]
    simp [hnone, hts]
  · intro hnone hts hopt
    rw [resolve_product_fst]
    unfold resolve_sku
    rw [hts]
    simp [hnone, hopt]
  · intro hnone hts hopt
    rw [resolve_product_fst]
    unfold resolve_sku
    rw [hts]
    simp [hnone, hopt]

/-- C8 witness: the explicit override wins over the declared tiers and
options at a concrete input. -/
theorem C8_precedence_witness :
    (resolve_product c1_db c8w_component c8w_request 1).1 = some "OVR-1" :=
  (C8_precedence c1_db c8w_component c8w_request 1).1 ("OVR-1") rfl

/-- C5: `generate_bom` fails exactly when the solution id resolves to no
stored solution, and returns a response for every request whose id does
resolve, whatever the components, tiers, formulas or catalog hold. -/
theorem C5_notfound_iff (db : Database) (r : BOMRequest) :
    ((∃ resp, generate_bom db r = Except.ok resp) ↔
      (get_solution db r.solution_id).isSome) ∧
    ((generate_bom db r = Except.error ("Solution not found: " ++ r.solution_id)) ↔
      get_solution db r.solution_id = none) := by
  cases hs : get_solution db r.solution_id <;> simp [generate_bom, hs]

/-- C6 counterexample: one hardware item with extended price -100 gives
a hardware sum of -100, which is nonzero, yet the response reports
`hardware_total = None` (the code tests `> 0`, not `≠ 0`). -/
theorem C6_counterexample :
    (generate_bom c6_db c6_request).toOption.map
      (fun resp => (resp.hardware_total, hw_sum resp.line_items)) = some (none, -100) ∧
    (-100 : ℚ) ≠ 0 := by
  constructor
  · simp [generate_bom, get_solution, c6_db, c6_solution, c6_request, c6_component,
      sort_components, List.insertionSort, List.orderedInsert, process_components,
      build_line_item, resolve_product, resolve_sku, find_product_by_sku, c6_product,
      calculate_quantity, hw_contrib, lic_contrib, hw_sum, is_licensing, note_entry,
      truthyS, Except.toOption, List.find?]
  · norm_num

/-- C6 (amended): in every response, `hardware_total` is the sum of
extended prices over non-license/subscription line items when that sum
is strictly positive and `None` otherwise; `licensing_total` likewise
over license/subscription items; `grand_total` is their sum unless
neither sum is strictly positive, in which case it is `None`. -/
theorem C6_totals (db : Database) (r : BOMRequest) (resp : BOMResponse)
    (h : generate_bom db r = Except.ok resp) :
    resp.hardware_total =
      (if hw_sum resp.line_items > 0 then some (hw_sum resp.line_items) else none) ∧
    resp.licensing_total =
      (if lic_sum resp.line_items > 0 then some (lic_sum resp.line_items) else none) ∧
    resp.grand_total =
      (if hw_sum resp.line_items > 0 ∨ lic_sum resp.line_items > 0 then
        some (hw_sum resp.line_items + lic_sum resp.line_items) else none) := by
  cases hs : get_solution db r.solution_id with
  | none => simp [generate_bom, hs] at h
  | some sol =>
    have hsum := process_components_sums db r (sort_components sol.components)
    simp only [generate_bom, hs] at h
    rw [Except.ok.injEq] at h
    subst h
    refine ⟨?_, ?_, ?_⟩ <;> dsimp only <;> simp only [hsum.1, hsum.2]

/-- C6 witness: the amended totals rule applied to the concrete
two-component run (hardware 200, licensing 50). -/
theorem C6_totals_witness :
    bom6w.hardware_total =
      (if hw_sum bom6w.line_items > 0 then some (hw_sum bom6w.line_items) else none) :=
  (C6_totals c6w_db c6w_request bom6w (by rfl)).1

/-- C9: the retained line items are exactly the sorted components minus
the zero-quantity non-required ones (one item per retained component,
carrying its resolved quantity, zero included for required components). -/
theorem C9_zero_quantity_items (db : Database) (r : BOMRequest) (sol : Solution)
    (resp : BOMResponse)
    (hs : get_solution db r.solution_id = some sol)
    (h : generate_bom db r = Except.ok resp) :
    resp.line_items = (sort_components sol.components).filterMap (fun c =>
      if calculate_quantity c r = 0 ∧ c.is_required = false then none
      else some (build_line_item db r c (calculate_quantity c r))) ∧
    (∀ c q, (build_line_item db r c q).quantity = q) := by
  constructor
  · simp only [generate_bom, hs] at h
    rw [Except.ok.injEq] at h
    subst h
    dsimp only
    exact process_components_items db r _
  · intro c q
    rfl

/-- C9 witness: the characterization applied to a concrete run in which
the optional zero-quantity component is dropped and the required one is
kept. -/
theorem C9_zero_quantity_items_witness :
    bom9.line_items = (sort_components c9_solution.components).filterMap (fun c =>
      if calculate_quantity c c9_request = 0 ∧ c.is_required = false then none
      else some (build_line_item c9_db c9_request c (calculate_quantity c c9_request))) ∧
    (∀ c q, (build_line_item c9_db c9_request c q).quantity = q) :=
  C9_zero_quantity_items c9_db c9_request c9_solution bom9 rfl (by rfl)

/-- C10: every response carries an empty `warnings` list — no path of
quantity resolution, product resolution or aggregation appends one. -/
theorem C10_no_warnings (db : Database) (r : BOMRequest) (resp : BOMResponse)
    (h : generate_bom db r = Except.ok resp) : resp.warnings = [] := by
  cases hs : get_solution db r.solution_id with
  | none => simp [generate_bom, hs] at h
  | some sol =>
    simp only [generate_bom, hs] at h
    rw [Except.ok.injEq] at h
    subst h
    rfl

/-- C10 witness: the concrete C9 run's response carries no warnings. -/
theorem C10_no_warnings_witness : bom9.warnings = [] :=
  C10_no_warnings c9_db c9_request bom9 (by rfl)

end VarPip
